import Mathlib

/-!
Verification of the Natrix `FluidSimulator` step scheduler
(`src/natrix/core/fluid_simulator_bgfx.py`).

The module is a GPU dispatch scheduler: every method only mutates a small
piece of scheduler state (buffer role indices, tunables, grid geometry) and
issues calls into the `bgfx` compute backend (uniform writes, buffer slot
bindings, kernel dispatches).  We embed it shallowly: the scheduler state is
a structure `FluidSimulator`, every backend call becomes an `Event`, and each
Python method becomes a Lean function returning the new state together with
the ordered list of backend events it emits.  Real numbers handled by the
Python code (`float` tunables, uniform payloads) are modelled as exact
rationals `ℚ`; the Python `int` tunable `iterations` is modelled as `ℤ`.
-/

namespace Natrix

/-- The compute kernels loaded by `_load_compute_kernels` (lines 263-275 of
the source), one per simulation stage. -/
inductive Kernel
  | AddVelocity
  | InitBoundaries
  | AdvectVelocity
  | Divergence
  | Poisson
  | SubtractGradient
  | CalcVorticity
  | ApplyVorticity
  | AddCircleObstacle
  | AddTriangleObstacle
  | ClearBuffer
  | Viscosity
deriving DecidableEq, Repr

/-- The named uniforms created by `_create_uniforms` (lines 199-214). -/
inductive Uniform
  | size
  | position
  | radius
  | value
  | static
  | p1
  | p2
  | p3
  | elapsed_time
  | speed
  | dissipation
  | velocity
  | vorticity_scale
  | alpha
  | rbeta
deriving DecidableEq, Repr

/-- Modelled from the spec: the fixed numeric backend binding slots of
`TemplateConstants` (the constants module is not part of the sources at hand;
§6 of the spec lists the slots: VELOCITY_IN, VELOCITY_OUT, PRESSURE_IN,
PRESSURE_OUT, DIVERGENCE, VORTICITY, OBSTACLES, and a GENERIC slot reused
transiently for the clear-buffer trick).  The concrete numeric values are
irrelevant to the scheduler logic; we keep the slots symbolic. -/
inductive Slot
  | VELOCITY_IN
  | VELOCITY_OUT
  | PRESSURE_IN
  | PRESSURE_OUT
  | DIVERGENCE
  | VORTICITY
  | OBSTACLES
  | GENERIC
deriving DecidableEq, Repr

/-- The GPU buffers allocated by `_create_buffers` (lines 250-261): two
velocity buffers, two pressure buffers, and the single-buffered divergence,
vorticity and obstacles fields.  The index of a double-buffered field is the
Python list index. -/
inductive Buf
  | velocity (i : ℕ)
  | pressure (i : ℕ)
  | divergence
  | vorticity
  | obstacles
deriving DecidableEq, Repr

/-- Access mode passed to `bgfx.setBuffer`.  The source spells it both
`bgfx.Access.Read`/`Write` and `bgfx.Access.READ`/`WRITE`; both denote the
same two access modes. -/
inductive Access
  | Read
  | Write
deriving DecidableEq, Repr

/-- One element of a marshalled uniform payload.  `np.float32` scalars are
modelled as exact rationals.  `add_velocity` places a whole Python 2-tuple
into one element of the payload list (`np.array([velocity, 0.0, 0.0, 0.0])`,
line 107), which `pair` records faithfully. -/
inductive Val
  | num (q : ℚ)
  | pair (x y : ℚ)
deriving DecidableEq, Repr

/-- A single call into the `bgfx` compute backend, in program order. -/
inductive Event
  | setUniform (u : Uniform) (payload : List Val)
  | dispatch (k : Kernel) (gx gy gz : ℕ)
  | setBuffer (slot : Slot) (buf : Buf) (access : Access)
deriving DecidableEq, Repr

/-- Modelled from the spec: `TemplateConstants.NUM_THREADS`, the fixed
grid-tile thread-group size T shared with kernel compilation (§6 of the spec;
its worked examples use T = 16).  The constants module itself is not among
the sources at hand. -/
def NUM_THREADS : ℕ := 16

/-- The scheduler state: the mutable instance fields of the Python class
`FluidSimulator` (buffer role indices, grid geometry, tunables, and the
`simulate` gate).  Opaque backend handles (uniform handles, buffer handles,
kernel handles) carry no scheduler-visible state and are represented by the
symbolic `Uniform`/`Buf`/`Kernel` values in events. -/
structure FluidSimulator where
  VELOCITY_READ : ℕ
  VELOCITY_WRITE : ℕ
  PRESSURE_READ : ℕ
  PRESSURE_WRITE : ℕ
  num_cells : ℕ
  num_groups_x : ℕ
  num_groups_y : ℕ
  width : ℕ
  height : ℕ
  speed : ℚ
  iterations : ℤ
  dissipation : ℚ
  vorticity : ℚ
  viscosity : ℚ
  simulate : Bool
deriving DecidableEq, Repr

namespace FluidSimulator

/-- The class-level defaults of the Python class (lines 14-32):
`VELOCITY_READ = 0`, `VELOCITY_WRITE = 1`, `PRESSURE_READ = 0`,
`PRESSURE_WRITE = 1`, sizes zeroed or 512, `_speed = 500.0`,
`_iterations = 50`, `_dissipation = 1.0`, `_vorticity = 0.0`,
`_viscosity = 0.1`, `simulate = True`. -/
def defaults : FluidSimulator where
  VELOCITY_READ := 0
  VELOCITY_WRITE := 1
  PRESSURE_READ := 0
  PRESSURE_WRITE := 1
  num_cells := 0
  num_groups_x := 0
  num_groups_y := 0
  width := 512
  height := 512
  speed := 500
  iterations := 50
  dissipation := 1
  vorticity := 0
  viscosity := 1/10
  simulate := true

/-- `_set_size` (lines 189-197): stores width/height, the cell count
`width * height`, and the workgroup counts
`int(ceil(float(width) / float(group_size)))` with
`group_size = TemplateConstants.NUM_THREADS`; the float division is modelled
as exact rational division. -/
def set_size (s : FluidSimulator) (width height : ℕ) : FluidSimulator :=
  let group_size_x := NUM_THREADS
  let group_size_y := NUM_THREADS
  { s with
    width := width
    height := height
    num_cells := width * height
    num_groups_x := (⌈(width : ℚ) / (group_size_x : ℚ)⌉).toNat
    num_groups_y := (⌈(height : ℚ) / (group_size_y : ℚ)⌉).toNat }

/-- The state produced by `__init__(width, height)` as far as scheduler state
is concerned: class defaults, then `_set_size(width, height)` (line 44).  The
other constructor steps only create backend handles. -/
def init (width height : ℕ) : FluidSimulator :=
  set_size defaults width height

/-- The `speed` property setter (lines 52-57): accepts `value > 0`, otherwise
raises `ValueError("'Speed' should be greater than zero")` leaving the state
unchanged (the exception path of a Python property assignment stores
nothing). -/
def set_speed (s : FluidSimulator) (value : ℚ) : Except String FluidSimulator :=
  if value > 0 then .ok { s with speed := value }
  else .error "'Speed' should be greater than zero"

/-- The `iterations` property setter (lines 63-68): accepts `value > 0`,
otherwise raises `ValueError("'Iterations' should be grater than zero")`
(sic, the typo is the source's). -/
def set_iterations (s : FluidSimulator) (value : ℤ) : Except String FluidSimulator :=
  if value > 0 then .ok { s with iterations := value }
  else .error "'Iterations' should be grater than zero"

/-- The `dissipation` property setter (lines 74-79). -/
def set_dissipation (s : FluidSimulator) (value : ℚ) : Except String FluidSimulator :=
  if value > 0 then .ok { s with dissipation := value }
  else .error "'Dissipation' should be grater than zero"

/-- The `vorticity` property setter (lines 85-90): accepts `value ≥ 0`. -/
def set_vorticity (s : FluidSimulator) (value : ℚ) : Except String FluidSimulator :=
  if value ≥ 0 then .ok { s with vorticity := value }
  else .error "'Vorticity' should be grater or equal than zero"

/-- The `viscosity` property setter (lines 96-101). -/
def set_viscosity (s : FluidSimulator) (value : ℚ) : Except String FluidSimulator :=
  if value > 0 then .ok { s with viscosity := value }
  else .error "'Viscosity' should be grater than zero"

/-- The state a Python property assignment leaves behind: the new state on
success, and the unchanged receiver when the setter raised. -/
def resultState (s : FluidSimulator) : Except String FluidSimulator → FluidSimulator
  | .ok s' => s'
  | .error _ => s

/-- `_flip_velocity_buffer` (lines 277-284): exchanges the velocity
READ/WRITE role indices, then rebinds the new READ buffer to the
`VELOCITY_IN` slot read-only and the new WRITE buffer to the `VELOCITY_OUT`
slot write-only. -/
def flip_velocity_buffer (s : FluidSimulator) : FluidSimulator × List Event :=
  let s' := { s with
    VELOCITY_READ := s.VELOCITY_WRITE
    VELOCITY_WRITE := s.VELOCITY_READ }
  (s',
   [.setBuffer .VELOCITY_IN (.velocity s'.VELOCITY_READ) .Read,
    .setBuffer .VELOCITY_OUT (.velocity s'.VELOCITY_WRITE) .Write])

/-- `_flip_pressure_buffer` (lines 286-293): same transposition and rebind
for the pressure pair. -/
def flip_pressure_buffer (s : FluidSimulator) : FluidSimulator × List Event :=
  let s' := { s with
    PRESSURE_READ := s.PRESSURE_WRITE
    PRESSURE_WRITE := s.PRESSURE_READ }
  (s',
   [.setBuffer .PRESSURE_IN (.pressure s'.PRESSURE_READ) .Read,
    .setBuffer .PRESSURE_OUT (.pressure s'.PRESSURE_WRITE) .Write])

/-- `add_velocity(position, velocity, radius)` (lines 103-112): writes the
position/velocity/radius uniforms (the velocity payload places the whole
tuple into the first array element, exactly as `[velocity, 0.0, 0.0, 0.0]`
does), dispatches the AddVelocity kernel over the full workgroup grid, and
flips the velocity buffers. -/
def add_velocity (s : FluidSimulator) (position : ℚ × ℚ) (velocity : ℚ × ℚ)
    (radius : ℚ) : FluidSimulator × List Event :=
  let evs : List Event :=
    [.setUniform .position [.num position.1, .num position.2, .num 0, .num 0],
     .setUniform .velocity [.pair velocity.1 velocity.2, .num 0, .num 0, .num 0],
     .setUniform .radius [.num radius, .num 0, .num 0, .num 0],
     .dispatch .AddVelocity s.num_groups_x s.num_groups_y 1]
  let f := flip_velocity_buffer s
  (f.1, evs ++ f.2)

/-- `add_circle_obstacle(position, radius, static)` (lines 116-124): writes
the position/radius/static uniforms and dispatches AddCircleObstacle; no
buffer swap. -/
def add_circle_obstacle (s : FluidSimulator) (position : ℚ × ℚ) (radius : ℚ)
    (static : Bool) : FluidSimulator × List Event :=
  (s,
   [.setUniform .position [.num position.1, .num position.2, .num 0, .num 0],
    .setUniform .radius [.num radius, .num 0, .num 0, .num 0],
    .setUniform .static [.num (if static then 1 else 0), .num 0, .num 0, .num 0],
    .dispatch .AddCircleObstacle s.num_groups_x s.num_groups_y 1])

/-- `add_triangle_obstacle(p1, p2, p3, static)` (lines 127-137): writes the
three vertex uniforms and the static flag, dispatches AddTriangleObstacle; no
buffer swap.  Line 129 of the source builds the P1 payload as
`[p1[0], p2[1], 0.0, 0.0]`, i.e. with `p2`'s Y-coordinate. -/
def add_triangle_obstacle (s : FluidSimulator) (p1 p2 p3 : ℚ × ℚ)
    (static : Bool) : FluidSimulator × List Event :=
  (s,
   [.setUniform .p1 [.num p1.1, .num p2.2, .num 0, .num 0],
    .setUniform .p2 [.num p2.1, .num p2.2, .num 0, .num 0],
    .setUniform .p3 [.num p3.1, .num p3.2, .num 0, .num 0],
    .setUniform .static [.num (if static then 1 else 0), .num 0, .num 0, .num 0],
    .dispatch .AddTriangleObstacle s.num_groups_x s.num_groups_y 1])

/-- `_update_params(time_delta)` (lines 216-232): uploads elapsed time,
speed, dissipation and vorticity scale, then the two derived Jacobi
coefficients `centre_factor = 1.0 / viscosity` and
`stencil_factor = 1.0 / (4.0 + centre_factor)` into the alpha and rbeta
uniforms. -/
def update_params (s : FluidSimulator) (time_delta : ℚ) : List Event :=
  let centre_factor : ℚ := 1 / s.viscosity
  let stencil_factor : ℚ := 1 / (4 + centre_factor)
  [.setUniform .elapsed_time [.num time_delta, .num 0, .num 0, .num 0],
   .setUniform .speed [.num s.speed, .num 0, .num 0, .num 0],
   .setUniform .dissipation [.num s.dissipation, .num 0, .num 0, .num 0],
   .setUniform .vorticity_scale [.num s.vorticity, .num 0, .num 0, .num 0],
   .setUniform .alpha [.num centre_factor, .num 0, .num 0, .num 0],
   .setUniform .rbeta [.num stencil_factor, .num 0, .num 0, .num 0]]

/-- The viscosity Jacobi loop of `update` (lines 159-161): `iterations`
repetitions of dispatching the Viscosity kernel followed by a velocity buffer
flip. -/
def viscosity_pass : ℕ → FluidSimulator → FluidSimulator × List Event
  | 0, s => (s, [])
  | n + 1, s =>
    let d : Event := .dispatch .Viscosity s.num_groups_x s.num_groups_y 1
    let f := flip_velocity_buffer s
    let rest := viscosity_pass n f.1
    (rest.1, d :: (f.2 ++ rest.2))

/-- The pressure Poisson loop of `update` (lines 174-176): `iterations`
repetitions of dispatching the Poisson kernel followed by a pressure buffer
flip. -/
def poisson_pass : ℕ → FluidSimulator → FluidSimulator × List Event
  | 0, s => (s, [])
  | n + 1, s =>
    let d : Event := .dispatch .Poisson s.num_groups_x s.num_groups_y 1
    let f := flip_pressure_buffer s
    let rest := poisson_pass n f.1
    (rest.1, d :: (f.2 ++ rest.2))

/-- `update(time_delta)` (lines 139-187).  When `simulate` is off the body is
skipped entirely.  Otherwise: upload per-tick uniforms; dispatch
InitBoundaries; dispatch AdvectVelocity and flip velocity; dispatch
CalcVorticity; dispatch ApplyVorticity and flip velocity; if
`viscosity > 0.0`, run the viscosity loop; dispatch Divergence; clear the
pressure-READ buffer through the GENERIC slot and rebind it to PRESSURE_IN;
run the Poisson loop; invoke the SubtractGradient kernel over the workgroup
grid (the source calls the kernel handle's `run(gx, gy, 1)` here rather than
`bgfx.dispatch`) and flip velocity; finally clear the obstacles buffer
through the GENERIC slot and rebind it to OBSTACLES write-only (line 187
binds it with WRITE access, as `_init_compute_kernels` does). -/
def update (s : FluidSimulator) (time_delta : ℚ) : FluidSimulator × List Event :=
  if s.simulate then
    let gx := s.num_groups_x
    let gy := s.num_groups_y
    let params := update_params s time_delta
    let f1 := flip_velocity_buffer s
    let s1 := f1.1
    let f2 := flip_velocity_buffer s1
    let s2 := f2.1
    let visc :=
      if s2.viscosity > 0 then viscosity_pass s2.iterations.toNat s2 else (s2, [])
    let s3 := visc.1
    let clear_pressure : List Event :=
      [.setBuffer .GENERIC (.pressure s3.PRESSURE_READ) .Write,
       .dispatch .ClearBuffer gx gy 1,
       .setBuffer .PRESSURE_IN (.pressure s3.PRESSURE_READ) .Read]
    let pois := poisson_pass s3.iterations.toNat s3
    let s4 := pois.1
    let f3 := flip_velocity_buffer s4
    let clear_obstacles : List Event :=
      [.setBuffer .GENERIC .obstacles .Write,
       .dispatch .ClearBuffer gx gy 1,
       .setBuffer .OBSTACLES .obstacles .Write]
    (f3.1,
     params
      ++ [.dispatch .InitBoundaries gx gy 1]
      ++ [.dispatch .AdvectVelocity gx gy 1] ++ f1.2
      ++ [.dispatch .CalcVorticity gx gy 1]
      ++ [.dispatch .ApplyVorticity gx gy 1] ++ f2.2
      ++ visc.2
      ++ [.dispatch .Divergence gx gy 1]
      ++ clear_pressure
      ++ pois.2
      ++ [.dispatch .SubtractGradient gx gy 1] ++ f3.2
      ++ clear_obstacles)
  else (s, [])

/-- `n` successive calls to `_flip_velocity_buffer`, keeping only the state
(the claims about role indices quantify over "any number of calls"). -/
def flips_velocity : ℕ → FluidSimulator → FluidSimulator
  | 0, s => s
  | n + 1, s => flips_velocity n (flip_velocity_buffer s).1

/-- `n` successive calls to `_flip_pressure_buffer`, keeping only the
state. -/
def flips_pressure : ℕ → FluidSimulator → FluidSimulator
  | 0, s => s
  | n + 1, s => flips_pressure n (flip_pressure_buffer s).1

end FluidSimulator

namespace Event

/-- Whether an event is a kernel dispatch (of any kernel). -/
def isDispatch : Event → Bool
  | .dispatch _ _ _ _ => true
  | _ => false

/-- Whether an event is a dispatch of the given kernel. -/
def isDispatchOf (k : Kernel) : Event → Bool
  | .dispatch k' _ _ _ => decide (k' = k)
  | _ => false

/-- Whether an event binds a buffer to the given backend slot. -/
def bindsSlot (sl : Slot) : Event → Bool
  | .setBuffer sl' _ _ => decide (sl' = sl)
  | _ => false

/-- Whether an event is a uniform (parameter) write. -/
def isSetUniform : Event → Bool
  | .setUniform _ _ => true
  | _ => false

/-- Whether an event writes the given uniform. -/
def setsUniform (u : Uniform) : Event → Bool
  | .setUniform u' _ => decide (u' = u)
  | _ => false

/-- Whether an event is a buffer slot binding. -/
def isSetBuffer : Event → Bool
  | .setBuffer _ _ _ => true
  | _ => false

end Event

/-!
Spec-side vocabulary for the pipeline claims: the events "a velocity buffer
swap" and "a pressure buffer swap" emit, and the claim-language shape of the
two Jacobi loops and of a whole tick.  These definitions follow the words of
the spec (§4.3 and §4.4), to be compared with the `update` function embedded
from the source.
-/

/-- The backend calls of one velocity buffer swap performed when the
pre-swap roles are `(read, write)` (§4.4: toggle the role pair, then rebind
the new READ field read-only and the new WRITE field write-only). -/
def velocity_swap_events (read write : ℕ) : List Event :=
  [.setBuffer .VELOCITY_IN (.velocity write) .Read,
   .setBuffer .VELOCITY_OUT (.velocity read) .Write]

/-- The backend calls of one pressure buffer swap performed when the
pre-swap roles are `(read, write)`. -/
def pressure_swap_events (read write : ℕ) : List Event :=
  [.setBuffer .PRESSURE_IN (.pressure write) .Read,
   .setBuffer .PRESSURE_OUT (.pressure read) .Write]

/-- Spec §4.3 step 6: `n` repetitions of (Viscosity dispatch followed by a
velocity buffer swap), starting from velocity roles `(read, write)`; the
roles alternate with each swap. -/
def spec_viscosity_loop (gx gy read write n : ℕ) : List Event :=
  (List.range n).flatMap fun i =>
    .dispatch .Viscosity gx gy 1 ::
      (if i % 2 = 0 then velocity_swap_events read write
       else velocity_swap_events write read)

/-- Spec §4.3 step 9: `n` repetitions of (Poisson dispatch followed by a
pressure buffer swap), starting from pressure roles `(read, write)`. -/
def spec_poisson_loop (gx gy read write n : ℕ) : List Event :=
  (List.range n).flatMap fun i =>
    .dispatch .Poisson gx gy 1 ::
      (if i % 2 = 0 then pressure_swap_events read write
       else pressure_swap_events write read)

/-- The whole tick, written from the claim's words (spec §4.3 steps 1-11):
uniform upload; InitBoundaries (no swap); AdvectVelocity then a velocity
swap; CalcVorticity (no swap); ApplyVorticity then a velocity swap; if
viscosity > 0, `iterations` repetitions of Viscosity-then-velocity-swap;
Divergence (no swap); clear of the pressure-READ field via ClearBuffer with
rebind back to the pressure-read slot; `iterations` repetitions of
Poisson-then-pressure-swap; SubtractGradient then a velocity swap; clear of
the obstacles field via ClearBuffer. -/
def spec_tick_trace (s : FluidSimulator) (td : ℚ) : List Event :=
  let gx := s.num_groups_x
  let gy := s.num_groups_y
  let vr := s.VELOCITY_READ
  let vw := s.VELOCITY_WRITE
  let pr := s.PRESSURE_READ
  let pw := s.PRESSURE_WRITE
  let n := s.iterations.toNat
  -- velocity roles entering the final SubtractGradient swap
  let fr : ℕ × ℕ :=
    if s.viscosity > 0 ∧ n % 2 = 1 then (vw, vr) else (vr, vw)
  FluidSimulator.update_params s td
    ++ [.dispatch .InitBoundaries gx gy 1]
    ++ (.dispatch .AdvectVelocity gx gy 1 :: velocity_swap_events vr vw)
    ++ [.dispatch .CalcVorticity gx gy 1]
    ++ (.dispatch .ApplyVorticity gx gy 1 :: velocity_swap_events vw vr)
    ++ (if s.viscosity > 0 then spec_viscosity_loop gx gy vr vw n else [])
    ++ [.dispatch .Divergence gx gy 1]
    ++ [.setBuffer .GENERIC (.pressure pr) .Write,
        .dispatch .ClearBuffer gx gy 1,
        .setBuffer .PRESSURE_IN (.pressure pr) .Read]
    ++ spec_poisson_loop gx gy pr pw n
    ++ (.dispatch .SubtractGradient gx gy 1 :: velocity_swap_events fr.1 fr.2)
    ++ [.setBuffer .GENERIC .obstacles .Write,
        .dispatch .ClearBuffer gx gy 1,
        .setBuffer .OBSTACLES .obstacles .Write]

/-! Helper lemmas about the buffer flips and the two Jacobi passes. -/

open FluidSimulator

lemma flip_velocity_buffer_involutive (s : FluidSimulator) :
    (flip_velocity_buffer (flip_velocity_buffer s).1).1 = s := rfl

lemma flip_pressure_buffer_involutive (s : FluidSimulator) :
    (flip_pressure_buffer (flip_pressure_buffer s).1).1 = s := rfl

lemma flips_velocity_eq (n : ℕ) (s : FluidSimulator) :
    flips_velocity n s = if n % 2 = 0 then s else (flip_velocity_buffer s).1 := by
  induction n generalizing s with
  | zero => simp [flips_velocity]
  | succ n ih =>
    rw [flips_velocity, ih]
    rcases Nat.mod_two_eq_zero_or_one n with h | h
    · have h' : (n + 1) % 2 = 1 := by omega
      simp [h, h']
    · have h' : (n + 1) % 2 = 0 := by omega
      simp [h, h', flip_velocity_buffer_involutive]

lemma flips_pressure_eq (n : ℕ) (s : FluidSimulator) :
    flips_pressure n s = if n % 2 = 0 then s else (flip_pressure_buffer s).1 := by
  induction n generalizing s with
  | zero => simp [flips_pressure]
  | succ n ih =>
    rw [flips_pressure, ih]
    rcases Nat.mod_two_eq_zero_or_one n with h | h
    · have h' : (n + 1) % 2 = 1 := by omega
      simp [h, h']
    · have h' : (n + 1) % 2 = 0 := by omega
      simp [h, h', flip_pressure_buffer_involutive]

lemma viscosity_pass_fst (n : ℕ) (s : FluidSimulator) :
    (viscosity_pass n s).1
      = if n % 2 = 0 then s else (flip_velocity_buffer s).1 := by
  induction n generalizing s with
  | zero => simp [viscosity_pass]
  | succ n ih =>
    rw [viscosity_pass, ih]
    rcases Nat.mod_two_eq_zero_or_one n with h | h
    · have h' : (n + 1) % 2 = 1 := by omega
      simp [h, h']
    · have h' : (n + 1) % 2 = 0 := by omega
      simp [h, h', flip_velocity_buffer_involutive]

lemma poisson_pass_fst (n : ℕ) (s : FluidSimulator) :
    (poisson_pass n s).1
      = if n % 2 = 0 then s else (flip_pressure_buffer s).1 := by
  induction n generalizing s with
  | zero => simp [poisson_pass]
  | succ n ih =>
    rw [poisson_pass, ih]
    rcases Nat.mod_two_eq_zero_or_one n with h | h
    · have h' : (n + 1) % 2 = 1 := by omega
      simp [h, h']
    · have h' : (n + 1) % 2 = 0 := by omega
      simp [h, h', flip_pressure_buffer_involutive]

lemma spec_viscosity_loop_succ (gx gy r w n : ℕ) :
    spec_viscosity_loop gx gy r w (n + 1) =
      (Event.dispatch .Viscosity gx gy 1 :: velocity_swap_events r w)
        ++ spec_viscosity_loop gx gy w r n := by
  unfold spec_viscosity_loop
  rw [List.range_succ_eq_map, List.flatMap_cons, List.flatMap_map]
  have hfun :
      (fun a => Event.dispatch .Viscosity gx gy 1 ::
          if (Nat.succ a) % 2 = 0 then velocity_swap_events r w
          else velocity_swap_events w r)
        = (fun i => Event.dispatch .Viscosity gx gy 1 ::
            if i % 2 = 0 then velocity_swap_events w r
            else velocity_swap_events r w) := by
    funext i
    rcases Nat.mod_two_eq_zero_or_one i with h | h
    · have h' : (Nat.succ i) % 2 = 1 := by omega
      simp [h, h']
    · have h' : (Nat.succ i) % 2 = 0 := by omega
      simp [h, h']
  simp only [hfun]
  simp

lemma spec_poisson_loop_succ (gx gy r w n : ℕ) :
    spec_poisson_loop gx gy r w (n + 1) =
      (Event.dispatch .Poisson gx gy 1 :: pressure_swap_events r w)
        ++ spec_poisson_loop gx gy w r n := by
  unfold spec_poisson_loop
  rw [List.range_succ_eq_map, List.flatMap_cons, List.flatMap_map]
  have hfun :
      (fun a => Event.dispatch .Poisson gx gy 1 ::
          if (Nat.succ a) % 2 = 0 then pressure_swap_events r w
          else pressure_swap_events w r)
        = (fun i => Event.dispatch .Poisson gx gy 1 ::
            if i % 2 = 0 then pressure_swap_events w r
            else pressure_swap_events r w) := by
    funext i
    rcases Nat.mod_two_eq_zero_or_one i with h | h
    · have h' : (Nat.succ i) % 2 = 1 := by omega
      simp [h, h']
    · have h' : (Nat.succ i) % 2 = 0 := by omega
      simp [h, h']
  simp only [hfun]
  simp

lemma viscosity_pass_snd (n : ℕ) (s : FluidSimulator) :
    (viscosity_pass n s).2
      = spec_viscosity_loop s.num_groups_x s.num_groups_y
          s.VELOCITY_READ s.VELOCITY_WRITE n := by
  induction n generalizing s with
  | zero => simp [viscosity_pass, spec_viscosity_loop]
  | succ n ih =>
    rw [viscosity_pass, spec_viscosity_loop_succ]
    simp [ih, flip_velocity_buffer, velocity_swap_events]

lemma poisson_pass_snd (n : ℕ) (s : FluidSimulator) :
    (poisson_pass n s).2
      = spec_poisson_loop s.num_groups_x s.num_groups_y
          s.PRESSURE_READ s.PRESSURE_WRITE n := by
  induction n generalizing s with
  | zero => simp [poisson_pass, spec_poisson_loop]
  | succ n ih =>
    rw [poisson_pass, spec_poisson_loop_succ]
    simp [ih, flip_pressure_buffer, pressure_swap_events]

lemma update_trace (s : FluidSimulator) (td : ℚ) (h : s.simulate = true) :
    (update s td).2 = spec_tick_trace s td := by
  rcases Nat.mod_two_eq_zero_or_one s.iterations.toNat with hn | hn <;>
  by_cases hv : s.viscosity > 0 <;>
  simp [update, h, hv, hn, spec_tick_trace, flip_velocity_buffer, flip_pressure_buffer,
        viscosity_pass_fst, viscosity_pass_snd, poisson_pass_fst, poisson_pass_snd,
        velocity_swap_events, pressure_swap_events]

lemma update_state_even (s : FluidSimulator) (td : ℚ) (h : s.simulate = true)
    (hv : s.viscosity > 0) (hn : s.iterations.toNat % 2 = 0) :
    (update s td).1
      = { s with VELOCITY_READ := s.VELOCITY_WRITE, VELOCITY_WRITE := s.VELOCITY_READ } := by
  simp [update, h, hv, hn, flip_velocity_buffer, flip_pressure_buffer,
        viscosity_pass_fst, poisson_pass_fst]

lemma viscosity_pass_count_dispatchOf (k : Kernel) (n : ℕ) (s : FluidSimulator) :
    ((viscosity_pass n s).2.countP (Event.isDispatchOf k))
      = if k = Kernel.Viscosity then n else 0 := by
  induction n generalizing s with
  | zero => simp [viscosity_pass]
  | succ n ih =>
    by_cases hk : k = Kernel.Viscosity
    · subst hk
      simp [viscosity_pass, flip_velocity_buffer, List.countP_cons, List.countP_append,
            ih, Event.isDispatchOf]
    · have hk' : ¬ Kernel.Viscosity = k := fun hh => hk hh.symm
      simp [viscosity_pass, flip_velocity_buffer, List.countP_cons, List.countP_append,
            ih, hk, hk', Event.isDispatchOf]

lemma poisson_pass_count_dispatchOf (k : Kernel) (n : ℕ) (s : FluidSimulator) :
    ((poisson_pass n s).2.countP (Event.isDispatchOf k))
      = if k = Kernel.Poisson then n else 0 := by
  induction n generalizing s with
  | zero => simp [poisson_pass]
  | succ n ih =>
    by_cases hk : k = Kernel.Poisson
    · subst hk
      simp [poisson_pass, flip_pressure_buffer, List.countP_cons, List.countP_append,
            ih, Event.isDispatchOf]
    · have hk' : ¬ Kernel.Poisson = k := fun hh => hk hh.symm
      simp [poisson_pass, flip_pressure_buffer, List.countP_cons, List.countP_append,
            ih, hk, hk', Event.isDispatchOf]

lemma viscosity_pass_count_bindsSlot (sl : Slot) (n : ℕ) (s : FluidSimulator) :
    ((viscosity_pass n s).2.countP (Event.bindsSlot sl))
      = if sl = Slot.VELOCITY_IN ∨ sl = Slot.VELOCITY_OUT then n else 0 := by
  induction n generalizing s with
  | zero => simp [viscosity_pass]
  | succ n ih =>
    rcases sl <;>
      simp [viscosity_pass, flip_velocity_buffer, List.countP_cons, List.countP_append,
            ih, Event.bindsSlot]

lemma poisson_pass_count_bindsSlot (sl : Slot) (n : ℕ) (s : FluidSimulator) :
    ((poisson_pass n s).2.countP (Event.bindsSlot sl))
      = if sl = Slot.PRESSURE_IN ∨ sl = Slot.PRESSURE_OUT then n else 0 := by
  induction n generalizing s with
  | zero => simp [poisson_pass]
  | succ n ih =>
    rcases sl <;>
      simp [poisson_pass, flip_pressure_buffer, List.countP_cons, List.countP_append,
            ih, Event.bindsSlot]

lemma viscosity_pass_count_isDispatch (n : ℕ) (s : FluidSimulator) :
    ((viscosity_pass n s).2.countP Event.isDispatch) = n := by
  induction n generalizing s with
  | zero => simp [viscosity_pass]
  | succ n ih =>
    simp [viscosity_pass, flip_velocity_buffer, List.countP_cons, List.countP_append,
          ih, Event.isDispatch]

lemma poisson_pass_count_isDispatch (n : ℕ) (s : FluidSimulator) :
    ((poisson_pass n s).2.countP Event.isDispatch) = n := by
  induction n generalizing s with
  | zero => simp [poisson_pass]
  | succ n ih =>
    simp [poisson_pass, flip_pressure_buffer, List.countP_cons, List.countP_append,
          ih, Event.isDispatch]

lemma viscosity_pass_count_setsUniform (u : Uniform) (n : ℕ) (s : FluidSimulator) :
    ((viscosity_pass n s).2.countP (Event.setsUniform u)) = 0 := by
  induction n generalizing s with
  | zero => simp [viscosity_pass]
  | succ n ih =>
    simp [viscosity_pass, flip_velocity_buffer, List.countP_cons, List.countP_append,
          ih, Event.setsUniform]

lemma poisson_pass_count_setsUniform (u : Uniform) (n : ℕ) (s : FluidSimulator) :
    ((poisson_pass n s).2.countP (Event.setsUniform u)) = 0 := by
  induction n generalizing s with
  | zero => simp [poisson_pass]
  | succ n ih =>
    simp [poisson_pass, flip_pressure_buffer, List.countP_cons, List.countP_append,
          ih, Event.setsUniform]

lemma ceil_div_16 (a : ℕ) : (⌈(a : ℚ) / 16⌉).toNat = (a + 15) / 16 := by
  have h16 : (0 : ℚ) < 16 := by norm_num
  have hz : ⌈(a : ℚ) / 16⌉ = (((a + 15) / 16 : ℕ) : ℤ) := by
    rw [Int.ceil_eq_iff]
    constructor
    · rw [lt_div_iff₀ h16, Int.cast_natCast]
      have key : (((a + 15) / 16 : ℕ) : ℚ) * 16 < (a : ℚ) + 16 := by
        exact_mod_cast (by omega : (a + 15) / 16 * 16 < a + 16)
      linarith
    · rw [div_le_iff₀ h16, Int.cast_natCast]
      have key : ((a : ℚ)) ≤ (((a + 15) / 16 : ℕ) : ℚ) * 16 := by
        exact_mod_cast (by omega : a ≤ (a + 15) / 16 * 16)
      linarith
  rw [hz]
  exact Int.toNat_natCast _

lemma set_size_num_groups_x (s : FluidSimulator) (w h : ℕ) :
    (set_size s w h).num_groups_x = (w + 15) / 16 := by
  simp [set_size, NUM_THREADS, ceil_div_16]

lemma set_size_num_groups_y (s : FluidSimulator) (w h : ℕ) :
    (set_size s w h).num_groups_y = (h + 15) / 16 := by
  simp [set_size, NUM_THREADS, ceil_div_16]

/-- Claim C1: for every call to `update(time_delta)` with the simulate flag
enabled, the backend calls are exactly the fixed, order-dependent pipeline of
spec §4.3: per-tick uniform upload; InitBoundaries dispatch (no swap);
AdvectVelocity dispatch followed by a velocity buffer swap; CalcVorticity
dispatch (no swap); ApplyVorticity dispatch followed by a velocity buffer
swap; if viscosity > 0, `iterations` repetitions of (Viscosity dispatch
followed by a velocity buffer swap); Divergence dispatch (no swap); clear of
the pressure-READ field via ClearBuffer with rebind back to the pressure-read
slot; `iterations` repetitions of (Poisson dispatch followed by a pressure
buffer swap); SubtractGradient followed by a velocity buffer swap; and
finally a clear of the obstacles field via ClearBuffer -- as captured by the
claim-side `spec_tick_trace`. -/
theorem claim_C1_update_pipeline_order (s : FluidSimulator) (td : ℚ)
    (h : s.simulate = true) :
    (update s td).2 = spec_tick_trace s td :=
  update_trace s td h

/-- Witness for C1 at the freshly constructed 512 x 512 simulator. -/
theorem claim_C1_update_pipeline_order_witness :
    (FluidSimulator.init 512 512).simulate = true
    ∧ (update (FluidSimulator.init 512 512) 1).2
        = spec_tick_trace (FluidSimulator.init 512 512) 1 :=
  ⟨rfl, claim_C1_update_pipeline_order (FluidSimulator.init 512 512) 1 rfl⟩

/-- Claim C2: after any number of flips starting from the initial role
assignment (READ = 0, WRITE = 1), the READ and WRITE indices are distinct
and together are exactly {0, 1}, and two consecutive flips restore the state
that held before the first of the two (the flip is an involution); for the
velocity pair and likewise for the pressure pair. -/
theorem claim_C2_buffer_roles (s : FluidSimulator) (n : ℕ)
    (hv : s.VELOCITY_READ = 0 ∧ s.VELOCITY_WRITE = 1)
    (hp : s.PRESSURE_READ = 0 ∧ s.PRESSURE_WRITE = 1) :
    ((flips_velocity n s).VELOCITY_READ ≠ (flips_velocity n s).VELOCITY_WRITE
      ∧ ((flips_velocity n s).VELOCITY_READ = 0 ∧ (flips_velocity n s).VELOCITY_WRITE = 1
          ∨ (flips_velocity n s).VELOCITY_READ = 1 ∧ (flips_velocity n s).VELOCITY_WRITE = 0))
    ∧ (flip_velocity_buffer (flip_velocity_buffer (flips_velocity n s)).1).1
        = flips_velocity n s
    ∧ ((flips_pressure n s).PRESSURE_READ ≠ (flips_pressure n s).PRESSURE_WRITE
      ∧ ((flips_pressure n s).PRESSURE_READ = 0 ∧ (flips_pressure n s).PRESSURE_WRITE = 1
          ∨ (flips_pressure n s).PRESSURE_READ = 1 ∧ (flips_pressure n s).PRESSURE_WRITE = 0))
    ∧ (flip_pressure_buffer (flip_pressure_buffer (flips_pressure n s)).1).1
        = flips_pressure n s := by
  obtain ⟨hv0, hv1⟩ := hv
  obtain ⟨hp0, hp1⟩ := hp
  refine ⟨?_, flip_velocity_buffer_involutive _, ?_, flip_pressure_buffer_involutive _⟩ <;>
    simp only [flips_velocity_eq, flips_pressure_eq] <;>
    rcases Nat.mod_two_eq_zero_or_one n with h | h <;>
      simp [h, flip_velocity_buffer, flip_pressure_buffer, hv0, hv1, hp0, hp1]

/-- Witness for C2 after three flips from the class defaults. -/
theorem claim_C2_buffer_roles_witness :
    (FluidSimulator.defaults.VELOCITY_READ = 0 ∧ FluidSimulator.defaults.VELOCITY_WRITE = 1)
    ∧ (flips_velocity 3 FluidSimulator.defaults).VELOCITY_READ
        ≠ (flips_velocity 3 FluidSimulator.defaults).VELOCITY_WRITE :=
  ⟨⟨rfl, rfl⟩,
   ((claim_C2_buffer_roles FluidSimulator.defaults 3 ⟨rfl, rfl⟩ ⟨rfl, rfl⟩).1).1⟩

/-- Claim C4: a call to `update` made while the simulate flag is False is a
no-op: the state is returned unchanged (buffer roles, bindings, tunables)
and the emitted backend-call list is empty, hence zero uniform writes and
zero dispatches. -/
theorem claim_C4_disabled_noop (s : FluidSimulator) (td : ℚ)
    (h : s.simulate = false) :
    update s td = (s, []) := by
  simp [update, h]

/-- Witness for C4 at the class defaults with the gate switched off. -/
theorem claim_C4_disabled_noop_witness :
    update { FluidSimulator.defaults with simulate := false } 1
      = ({ FluidSimulator.defaults with simulate := false }, []) :=
  claim_C4_disabled_noop { FluidSimulator.defaults with simulate := false } 1 rfl

/-- Claim C7: `add_velocity` writes position, velocity and radius as kernel
parameters, dispatches AddVelocity once over the full workgroup grid, then
performs exactly one velocity buffer swap (the returned state has the roles
transposed and the trace ends with the swap's rebind events); whereas
`add_circle_obstacle` and `add_triangle_obstacle` dispatch their kernel once
and perform no buffer swap on any buffer (state unchanged, no buffer
binding event at all in their traces). -/
theorem claim_C7_interaction_ops (s : FluidSimulator) (position velocity : ℚ × ℚ)
    (radius : ℚ) (cpos : ℚ × ℚ) (cradius : ℚ) (p1 p2 p3 : ℚ × ℚ) (cs ts : Bool) :
    (add_velocity s position velocity radius
      = ({ s with VELOCITY_READ := s.VELOCITY_WRITE, VELOCITY_WRITE := s.VELOCITY_READ },
         [.setUniform .position [.num position.1, .num position.2, .num 0, .num 0],
          .setUniform .velocity [.pair velocity.1 velocity.2, .num 0, .num 0, .num 0],
          .setUniform .radius [.num radius, .num 0, .num 0, .num 0],
          .dispatch .AddVelocity s.num_groups_x s.num_groups_y 1]
          ++ velocity_swap_events s.VELOCITY_READ s.VELOCITY_WRITE)
      ∧ ((add_velocity s position velocity radius).2.countP
            (Event.isDispatchOf .AddVelocity)) = 1)
    ∧ ((add_circle_obstacle s cpos cradius cs).1 = s
      ∧ ((add_circle_obstacle s cpos cradius cs).2.countP
            (Event.isDispatchOf .AddCircleObstacle)) = 1
      ∧ ((add_circle_obstacle s cpos cradius cs).2.countP Event.isDispatch) = 1
      ∧ ((add_circle_obstacle s cpos cradius cs).2.countP Event.isSetBuffer) = 0)
    ∧ ((add_triangle_obstacle s p1 p2 p3 ts).1 = s
      ∧ ((add_triangle_obstacle s p1 p2 p3 ts).2.countP
            (Event.isDispatchOf .AddTriangleObstacle)) = 1
      ∧ ((add_triangle_obstacle s p1 p2 p3 ts).2.countP Event.isDispatch) = 1
      ∧ ((add_triangle_obstacle s p1 p2 p3 ts).2.countP Event.isSetBuffer) = 0) := by
  refine ⟨⟨?_, ?_⟩, ⟨rfl, ?_, ?_, ?_⟩, ⟨rfl, ?_, ?_, ?_⟩⟩ <;>
    simp [add_velocity, add_circle_obstacle, add_triangle_obstacle,
          flip_velocity_buffer, velocity_swap_events,
          Event.isDispatchOf, Event.isDispatch, Event.isSetBuffer, List.countP_cons]

/-- Claim C8: in `add_triangle_obstacle(p1, p2, p3, static)` the payload
written to the P1 uniform is (p1.x, p2.y, 0, 0) -- the p1 parameter write
uses p2's Y-coordinate -- while the P2 uniform receives (p2.x, p2.y, 0, 0)
and the P3 uniform receives (p3.x, p3.y, 0, 0); each of the three is written
exactly once. -/
theorem claim_C8_triangle_p1_uses_p2_y (s : FluidSimulator) (p1 p2 p3 : ℚ × ℚ)
    (static : Bool) :
    (Event.setUniform .p1 [.num p1.1, .num p2.2, .num 0, .num 0]
        ∈ (add_triangle_obstacle s p1 p2 p3 static).2)
    ∧ (Event.setUniform .p2 [.num p2.1, .num p2.2, .num 0, .num 0]
        ∈ (add_triangle_obstacle s p1 p2 p3 static).2)
    ∧ (Event.setUniform .p3 [.num p3.1, .num p3.2, .num 0, .num 0]
        ∈ (add_triangle_obstacle s p1 p2 p3 static).2)
    ∧ ((add_triangle_obstacle s p1 p2 p3 static).2.countP (Event.setsUniform .p1)) = 1
    ∧ ((add_triangle_obstacle s p1 p2 p3 static).2.countP (Event.setsUniform .p2)) = 1
    ∧ ((add_triangle_obstacle s p1 p2 p3 static).2.countP (Event.setsUniform .p3)) = 1 := by
  simp [add_triangle_obstacle, Event.setsUniform, List.countP_cons]

/-- Claim C3: a tick with simulate enabled, viscosity > 0 (which the
accessor invariant guarantees) and `iterations = N` issues exactly
2 (clear-buffer) + N (viscosity) + N (pressure) + 6 fixed-stage dispatches:
the six fixed stages (InitBoundaries, AdvectVelocity, CalcVorticity,
ApplyVorticity, Divergence, SubtractGradient) are dispatched once each,
ClearBuffer exactly twice, Viscosity exactly N times and Poisson exactly N
times, for 2N + 8 dispatches in total. -/
theorem claim_C3_dispatch_count (s : FluidSimulator) (td : ℚ) (N : ℕ)
    (h : s.simulate = true) (hvisc : 0 < s.viscosity) (hN : s.iterations = (N : ℤ)) :
    ((update s td).2.countP Event.isDispatch) = 2 + N + N + 6
    ∧ ((update s td).2.countP (Event.isDispatchOf .Viscosity)) = N
    ∧ ((update s td).2.countP (Event.isDispatchOf .Poisson)) = N
    ∧ ((update s td).2.countP (Event.isDispatchOf .ClearBuffer)) = 2
    ∧ ((update s td).2.countP (Event.isDispatchOf .InitBoundaries)) = 1
    ∧ ((update s td).2.countP (Event.isDispatchOf .AdvectVelocity)) = 1
    ∧ ((update s td).2.countP (Event.isDispatchOf .CalcVorticity)) = 1
    ∧ ((update s td).2.countP (Event.isDispatchOf .ApplyVorticity)) = 1
    ∧ ((update s td).2.countP (Event.isDispatchOf .Divergence)) = 1
    ∧ ((update s td).2.countP (Event.isDispatchOf .SubtractGradient)) = 1 := by
  rcases Nat.mod_two_eq_zero_or_one N with hn | hn <;>
  refine ⟨?_, ?_, ?_, ?_, ?_, ?_, ?_, ?_, ?_, ?_⟩ <;>
    simp [update, h, hvisc, hN, hn, List.countP_append, List.countP_cons,
          viscosity_pass_count_isDispatch, poisson_pass_count_isDispatch,
          viscosity_pass_count_dispatchOf, poisson_pass_count_dispatchOf,
          viscosity_pass_fst, Int.toNat_natCast,
          update_params, flip_velocity_buffer, flip_pressure_buffer,
          Event.isDispatch, Event.isDispatchOf] <;>
    omega

/-- Witness for C3 at N = 50 (the default) and at N = 1. -/
theorem claim_C3_dispatch_count_witness :
    ((update FluidSimulator.defaults 1).2.countP Event.isDispatch) = 2 + 50 + 50 + 6
    ∧ ((update { FluidSimulator.defaults with iterations := 1 } 1).2.countP
          Event.isDispatch) = 2 + 1 + 1 + 6 :=
  ⟨(claim_C3_dispatch_count FluidSimulator.defaults 1 50 rfl
      (by norm_num [FluidSimulator.defaults]) rfl).1,
   (claim_C3_dispatch_count { FluidSimulator.defaults with iterations := 1 } 1 1 rfl
      (by norm_num [FluidSimulator.defaults]) rfl).1⟩

/-- Claim C5: for every tunable (speed, iterations, dissipation, vorticity,
viscosity), setting a valid value (speed, iterations, dissipation,
viscosity > 0; vorticity ≥ 0) then getting returns the same value, and
setting an invalid value fails with the source's error message (which names
the parameter and its constraint) while the stored state is unchanged. -/
theorem claim_C5_tunable_setters (s : FluidSimulator) (v u w x : ℚ) (m n : ℤ)
    (hv : 0 < v) (hu : 0 ≤ u) (hw : w ≤ 0) (hx : x < 0) (hm : 0 < m) (hn : n ≤ 0) :
    (set_speed s v = .ok { s with speed := v }
      ∧ ({ s with speed := v } : FluidSimulator).speed = v
      ∧ set_speed s w = .error "'Speed' should be greater than zero"
      ∧ resultState s (set_speed s w) = s)
    ∧ (set_iterations s m = .ok { s with iterations := m }
      ∧ ({ s with iterations := m } : FluidSimulator).iterations = m
      ∧ set_iterations s n = .error "'Iterations' should be grater than zero"
      ∧ resultState s (set_iterations s n) = s)
    ∧ (set_dissipation s v = .ok { s with dissipation := v }
      ∧ ({ s with dissipation := v } : FluidSimulator).dissipation = v
      ∧ set_dissipation s w = .error "'Dissipation' should be grater than zero"
      ∧ resultState s (set_dissipation s w) = s)
    ∧ (set_vorticity s u = .ok { s with vorticity := u }
      ∧ ({ s with vorticity := u } : FluidSimulator).vorticity = u
      ∧ set_vorticity s x = .error "'Vorticity' should be grater or equal than zero"
      ∧ resultState s (set_vorticity s x) = s)
    ∧ (set_viscosity s v = .ok { s with viscosity := v }
      ∧ ({ s with viscosity := v } : FluidSimulator).viscosity = v
      ∧ set_viscosity s w = .error "'Viscosity' should be grater than zero"
      ∧ resultState s (set_viscosity s w) = s) := by
  have hw' : ¬ w > 0 := not_lt.2 hw
  have hn' : ¬ n > 0 := not_lt.2 hn
  have hx' : ¬ x ≥ 0 := not_le.2 hx
  simp [set_speed, set_iterations, set_dissipation, set_vorticity, set_viscosity,
        resultState, hv, hu, hm, hw', hn', hx']

/-- Witness for C5: a valid and an invalid assignment at the defaults. -/
theorem claim_C5_tunable_setters_witness :
    set_speed FluidSimulator.defaults 2 = .ok { FluidSimulator.defaults with speed := 2 }
    ∧ set_speed FluidSimulator.defaults 0 = .error "'Speed' should be greater than zero"
    ∧ set_vorticity FluidSimulator.defaults (-1)
        = .error "'Vorticity' should be grater or equal than zero"
    ∧ resultState FluidSimulator.defaults (set_vorticity FluidSimulator.defaults (-1))
        = FluidSimulator.defaults := by
  obtain ⟨⟨hs1, _, hs3, _⟩, _, _, ⟨_, _, hv3, hv4⟩, _⟩ :=
    claim_C5_tunable_setters FluidSimulator.defaults 2 0 0 (-1) 3 0
      (by norm_num) le_rfl le_rfl (by norm_num) (by norm_num) le_rfl
  exact ⟨hs1, hs3, hv3, hv4⟩

/-- Claim C6: for every viscosity v > 0 held when `update` runs, the two
derived Jacobi coefficients uploaded that tick are exactly
centre_factor = 1/v (to the alpha uniform) and stencil_factor = 1/(4 + 1/v)
(to the rbeta uniform), and each is uploaded exactly once per tick. -/
theorem claim_C6_jacobi_coefficients (s : FluidSimulator) (td : ℚ)
    (h : s.simulate = true) (hv : 0 < s.viscosity) :
    (Event.setUniform .alpha [.num (1 / s.viscosity), .num 0, .num 0, .num 0]
        ∈ (update s td).2)
    ∧ (Event.setUniform .rbeta [.num (1 / (4 + 1 / s.viscosity)), .num 0, .num 0, .num 0]
        ∈ (update s td).2)
    ∧ ((update s td).2.countP (Event.setsUniform .alpha)) = 1
    ∧ ((update s td).2.countP (Event.setsUniform .rbeta)) = 1 := by
  refine ⟨?_, ?_, ?_, ?_⟩
  · rw [update_trace s td h]
    simp [spec_tick_trace, update_params, List.mem_append]
  · rw [update_trace s td h]
    simp [spec_tick_trace, update_params, List.mem_append]
  · simp [update, h, hv, List.countP_append, List.countP_cons,
          viscosity_pass_count_setsUniform, poisson_pass_count_setsUniform,
          Event.setsUniform, update_params, flip_velocity_buffer, flip_pressure_buffer]
  · simp [update, h, hv, List.countP_append, List.countP_cons,
          viscosity_pass_count_setsUniform, poisson_pass_count_setsUniform,
          Event.setsUniform, update_params, flip_velocity_buffer, flip_pressure_buffer]

/-- Witness for C6 at the default viscosity 0.1: centre factor 10 and
stencil factor 1/14 are uploaded. -/
theorem claim_C6_jacobi_coefficients_witness :
    (0 : ℚ) < FluidSimulator.defaults.viscosity
    ∧ (Event.setUniform .alpha [.num 10, .num 0, .num 0, .num 0]
        ∈ (update FluidSimulator.defaults 1).2)
    ∧ (Event.setUniform .rbeta [.num (1/14), .num 0, .num 0, .num 0]
        ∈ (update FluidSimulator.defaults 1).2) := by
  have h := claim_C6_jacobi_coefficients FluidSimulator.defaults 1 rfl
    (by norm_num [FluidSimulator.defaults])
  refine ⟨by norm_num [FluidSimulator.defaults], ?_, ?_⟩
  · have h1 := h.1
    norm_num [FluidSimulator.defaults] at h1
    exact h1
  · have h2 := h.2.1
    norm_num [FluidSimulator.defaults] at h2
    exact h2

/-- Claim C9: `_set_size` stores workgroup counts
groups_x = ceil(width / T), groups_y = ceil(height / T) for the fixed tile
size T = NUM_THREADS (equivalently the rounding-up integer division), and
the cell count width * height; in particular 512 x 512 with T = 16 gives
groups (32, 32), and width 500 gives groups_x = 32. -/
theorem claim_C9_workgroups (s : FluidSimulator) (width height : ℕ) :
    ((set_size s width height).num_groups_x = (⌈(width : ℚ) / (NUM_THREADS : ℚ)⌉).toNat
      ∧ (set_size s width height).num_groups_y = (⌈(height : ℚ) / (NUM_THREADS : ℚ)⌉).toNat)
    ∧ ((set_size s width height).num_groups_x = (width + NUM_THREADS - 1) / NUM_THREADS
      ∧ (set_size s width height).num_groups_y = (height + NUM_THREADS - 1) / NUM_THREADS)
    ∧ (set_size s width height).num_cells = width * height
    ∧ ((set_size s 512 512).num_groups_x = 32 ∧ (set_size s 512 512).num_groups_y = 32)
    ∧ (set_size s 500 height).num_groups_x = 32 := by
  refine ⟨⟨rfl, rfl⟩, ⟨?_, ?_⟩, rfl, ⟨?_, ?_⟩, ?_⟩ <;>
    simp [set_size_num_groups_x, set_size_num_groups_y, NUM_THREADS]

/-- Claim C10 (implicit): a tick with simulate enabled and viscosity > 0
performs exactly iterations + 3 velocity-buffer flips (each visible as one
VELOCITY_OUT rebind) and exactly iterations pressure-buffer flips (each
visible as one PRESSURE_OUT rebind); when iterations is even the pressure
READ/WRITE role assignment after the tick equals the one before it, while
the velocity role assignment is transposed. -/
theorem claim_C10_per_tick_flips (s : FluidSimulator) (td : ℚ) (N : ℕ)
    (h : s.simulate = true) (hvisc : 0 < s.viscosity) (hN : s.iterations = (N : ℤ)) :
    ((update s td).2.countP (Event.bindsSlot .VELOCITY_OUT)) = N + 3
    ∧ ((update s td).2.countP (Event.bindsSlot .PRESSURE_OUT)) = N
    ∧ (N % 2 = 0 →
        ((update s td).1.PRESSURE_READ = s.PRESSURE_READ
          ∧ (update s td).1.PRESSURE_WRITE = s.PRESSURE_WRITE
          ∧ (update s td).1.VELOCITY_READ = s.VELOCITY_WRITE
          ∧ (update s td).1.VELOCITY_WRITE = s.VELOCITY_READ)) := by
  refine ⟨?_, ?_, fun hE => ?_⟩
  · rcases Nat.mod_two_eq_zero_or_one N with hn | hn <;>
    simp [update, h, hvisc, hN, hn, List.countP_append, List.countP_cons,
          viscosity_pass_count_bindsSlot, poisson_pass_count_bindsSlot,
          viscosity_pass_fst, Int.toNat_natCast,
          update_params, flip_velocity_buffer, flip_pressure_buffer,
          Event.bindsSlot]
  · rcases Nat.mod_two_eq_zero_or_one N with hn | hn <;>
    simp [update, h, hvisc, hN, hn, List.countP_append, List.countP_cons,
          viscosity_pass_count_bindsSlot, poisson_pass_count_bindsSlot,
          viscosity_pass_fst, Int.toNat_natCast,
          update_params, flip_velocity_buffer, flip_pressure_buffer,
          Event.bindsSlot]
  · have hmod : s.iterations.toNat % 2 = 0 := by
      rw [hN]
      simpa using hE
    rw [update_state_even s td h hvisc hmod]
    simp

/-- Witness for C10 at the defaults (iterations = 50, even): 53 velocity
rebinds, 50 pressure rebinds, pressure roles restored, velocity roles
transposed. -/
theorem claim_C10_per_tick_flips_witness :
    ((update FluidSimulator.defaults 1).2.countP (Event.bindsSlot .VELOCITY_OUT)) = 53
    ∧ ((update FluidSimulator.defaults 1).2.countP (Event.bindsSlot .PRESSURE_OUT)) = 50
    ∧ (update FluidSimulator.defaults 1).1.PRESSURE_READ
        = FluidSimulator.defaults.PRESSURE_READ
    ∧ (update FluidSimulator.defaults 1).1.VELOCITY_READ
        = FluidSimulator.defaults.VELOCITY_WRITE := by
  have h := claim_C10_per_tick_flips FluidSimulator.defaults 1 50 rfl
    (by norm_num [FluidSimulator.defaults]) rfl
  have h3 := h.2.2 (by norm_num)
  exact ⟨by simpa using h.1, h.2.1, h3.1, h3.2.2.1⟩

end Natrix
